import Mathlib

/-!
Verification of the external-sync reconciliation engine of the
trainerize-sync-app repository, shallowly embedded from
`src/lib/trainerize-client.ts`, the sync service in the same module, and
`src/app/api/sync/preview/route.ts`.

JavaScript values reaching the modelled code paths are embedded as `Val`;
JS objects as string-keyed attribute maps (`Rec`), where an absent key
models an `undefined` property and `Val.null` models JS `null`.  Arrays and
plain objects compare by reference in JS; in every modelled code path two
array or object values are distinct heap objects, so strict equality on
them is embedded as `false`.
-/

namespace TrainerizeSync

/-- Embedded JavaScript value for the fields handled by the sync code. -/
inductive Val where
  | null
  | str (s : String)
  | num (n : Int)
  | bool (b : Bool)
  | arr (vs : List Val)
  | obj (fields : List (String × Val))

/-- JavaScript truthiness of a value. -/
def Val.truthy : Val → Bool
  | .null => false
  | .str s => s != ""
  | .num n => n != 0
  | .bool b => b
  | .arr _ => true
  | .obj _ => true

/-- JavaScript strict equality (`===`).  Arrays and objects compare by
reference; every array or object value in the modelled code paths is a
distinct heap object, so they are never strictly equal here. -/
def Val.seq : Val → Val → Bool
  | .null, .null => true
  | .str a, .str b => a == b
  | .num a, .num b => a == b
  | .bool a, .bool b => a == b
  | _, _ => false

mutual

/-- String coercion of a value as performed by a JS template literal. -/
def showVal : Val → String
  | .null => "null"
  | .str s => s
  | .num n => toString n
  | .bool b => if b then "true" else "false"
  | .arr vs => String.intercalate "," (showValList vs)
  | .obj _ => "[object Object]"

/-- String coercion of each element of a list of values. -/
def showValList : List Val → List String
  | [] => []
  | v :: vs => showVal v :: showValList vs

end

/-- Template-literal coercion of a possibly-undefined value. -/
def showValO : Option Val → String
  | none => "undefined"
  | some v => showVal v

/-- A JS object: attribute map from property names to values.  A key that is
absent models an `undefined` property. -/
abbrev Rec := List (String × Val)

/-- Property read `r[k]`; `none` models `undefined`. -/
def getAttr : Rec → String → Option Val
  | [], _ => none
  | (k', v) :: r, k => if k' = k then some v else getAttr r k

/-- Property write `r[k] = v`: replaces the value of an existing key in
place, otherwise appends the key (JS insertion-order semantics). -/
def setAttr : Rec → String → Val → Rec
  | [], k, v => [(k, v)]
  | (k', v') :: r, k, v => if k' = k then (k, v) :: r else (k', v') :: setAttr r k v

/-- Object spread `\x7b ...a, ...b \x7d`: the fields of `b` override those of `a`. -/
def mergeRec (a b : Rec) : Rec :=
  b.foldl (fun acc p => setAttr acc p.1 p.2) a

/-- Truthiness of a possibly-undefined value (`undefined` is falsy). -/
def truthyO : Option Val → Bool
  | none => false
  | some v => v.truthy

/-- Substring occurrence over character lists (structural recursion). -/
def charsContain (needle : List Char) : List Char → Bool
  | [] => needle.isEmpty
  | c :: rest => List.isPrefixOf needle (c :: rest) || charsContain needle rest

/-- JS `String.prototype.includes`: the needle occurs somewhere in the string
(an empty needle always occurs). -/
def jsIncludes (s needle : String) : Bool :=
  charsContain needle.data s.data

/-- JS `String.prototype.toLowerCase` for the characters reaching it. -/
def jsToLower (s : String) : String :=
  String.mk (s.data.map Char.toLower)

/-- JS `String.prototype.trim`: strips whitespace from both ends. -/
def jsTrim (s : String) : String :=
  String.mk (((s.data.dropWhile Char.isWhitespace).reverse.dropWhile
    Char.isWhitespace).reverse)

/-! Reconciliation engine (`SyncService` in the source).  The column mapping
and the table-column type information come from the schema-discovery
collaborator; they are static per service instance and are passed here as
parameters. -/

/-- Discovered standard-field-name to database-column mapping
(`this.columnMapping`). -/
abbrev ColumnMapping := List (String × String)

/-- Discovered `data_type` of each table column (`this.tableSchema.columns`). -/
abbrev ColumnTypes := List (String × String)

/-- Embeds `getColumnName`: `this.columnMapping[standardField] || standardField`
(an empty mapped name is falsy and falls back to the standard field). -/
def getColumnName (cm : ColumnMapping) (standardField : String) : String :=
  match (cm.find? (fun p => p.1 == standardField)).map Prod.snd with
  | some c => if c == "" then standardField else c
  | none => standardField

/-- The fixed significant-field set of `detectConflicts`. -/
def significantFields : List String := ["name", "description", "category"]

/-- Embeds the per-field test of the `detectConflicts` loop: the column name is
truthy, both sides hold a truthy value there, and the values differ under
strict inequality. -/
def differsOn (cm : ColumnMapping) (newData existingData : Rec) (field : String) : Bool :=
  let dbColumn := getColumnName cm field
  dbColumn != "" && truthyO (getAttr newData dbColumn) && truthyO (getAttr existingData dbColumn)
    && !(Val.seq ((getAttr newData dbColumn).getD .null) ((getAttr existingData dbColumn).getD .null))

/-- Significant fields reported as differing by `detectConflicts`. -/
def conflictFieldNames (cm : ColumnMapping) (newData existingData : Rec) : List String :=
  significantFields.filter (differsOn cm newData existingData)

/-- Renders one conflict entry.  The separator reproduces the literal bytes of
the source template (a double-encoded arrow). -/
def renderConflict (field : String) (oldVal newVal : Val) : String :=
  field ++ ": \"" ++ showVal oldVal ++ "\" â†’ \"" ++ showVal newVal ++ "\""

/-- Embeds `detectConflicts`: one rendered entry per differing significant
field, existing value first. -/
def detectConflicts (cm : ColumnMapping) (newData existingData : Rec) : List String :=
  (conflictFieldNames cm newData existingData).map (fun field =>
    let dbColumn := getColumnName cm field
    renderConflict field ((getAttr existingData dbColumn).getD .null)
      ((getAttr newData dbColumn).getD .null))

/-- Embeds `transformValue`: array columns wrap scalars
(`[value].filter(Boolean)`), boolean columns coerce to truthiness, json
columns wrap non-objects (`typeof null` is `"object"`, so `null` and arrays
pass through). -/
def transformValue (ct : ColumnTypes) (value : Val) (columnName : String) : Val :=
  match (ct.find? (fun p => p.1 == columnName)).map Prod.snd with
  | none => value
  | some dt =>
    if dt == "ARRAY" || jsIncludes dt "[]" then
      match value with
      | .arr vs => .arr vs
      | v => .arr (if v.truthy then [v] else [])
    else if dt == "boolean" then .bool value.truthy
    else if dt == "jsonb" || dt == "json" then
      match value with
      | .obj fs => .obj fs
      | .arr vs => .arr vs
      | .null => .null
      | v => .obj [("raw", v)]
    else value

/-- The static trainerize-field to standard-db-field table of
`mapTrainerizeData`, in `Object.entries` order. -/
def trainerizeFieldPairs : List (String × String) :=
  [("id", "trainerize_id"), ("name", "name"), ("description", "description"),
   ("category", "category"), ("muscle_groups", "muscle_groups"),
   ("equipment", "equipment"), ("instructions", "instructions"),
   ("video_url", "video_url"), ("thumbnail_url", "thumbnail_url"),
   ("difficulty_level", "difficulty_level"), ("is_active", "is_active")]

/-- The field-copy loop of `mapTrainerizeData`: copies each defined remote
field to its mapped column, transformed by column type. -/
def mapFields (cm : ColumnMapping) (ct : ColumnTypes) (trainerizeData : Rec) : Rec :=
  trainerizeFieldPairs.foldl (fun mapped p =>
    let dbColumn := getColumnName cm p.2
    match getAttr trainerizeData p.1 with
    | some value =>
      if dbColumn != "" then setAttr mapped dbColumn (transformValue ct value dbColumn)
      else mapped
    | none => mapped) []

/-- The timestamping tail of `mapTrainerizeData`: `updatedAt` is always
refreshed, `createdAt` is set only when absent (falsy). -/
def addTimestamps (cm : ColumnMapping) (now : String) (mapped : Rec) : Rec :=
  let updatedAtColumn := getColumnName cm "updated_at"
  let createdAtColumn := getColumnName cm "created_at"
  let m1 := if updatedAtColumn != "" then setAttr mapped updatedAtColumn (.str now) else mapped
  if createdAtColumn != "" && !truthyO (getAttr m1 createdAtColumn) then
    setAttr m1 createdAtColumn (.str now)
  else m1

/-- Embeds `mapTrainerizeData`; `now` is `new Date().toISOString()`. -/
def mapTrainerizeData (cm : ColumnMapping) (ct : ColumnTypes) (now : String)
    (trainerizeData : Rec) : Rec :=
  addTimestamps cm now (mapFields cm ct trainerizeData)

/-- Embedded ES2015 `Map` with `Val` keys (SameValueZero key equality). -/
abbrev ValMap := List (Val × Rec)

/-- Embeds `Map.prototype.get`. -/
def mapGet (m : ValMap) (k : Val) : Option Rec :=
  (m.find? (fun p => Val.seq p.1 k)).map Prod.snd

/-- Embeds `Map.prototype.set` (replaces an existing key in place). -/
def mapSet (m : ValMap) (k : Val) (v : Rec) : ValMap :=
  if m.any (fun p => Val.seq p.1 k) then
    m.map (fun p => if Val.seq p.1 k then (k, v) else p)
  else m ++ [(k, v)]

/-- The `Map.get(trainerizeExercise.id)` lookup.  A missing `id` property is
`undefined`, which matches no key of a map built over truthy keys; no key of
an embedded map can be `undefined`, so the lookup misses. -/
def lookupById (byId : ValMap) (trainerizeExercise : Rec) : Option Rec :=
  match getAttr trainerizeExercise "id" with
  | some v => mapGet byId v
  | none => none

/-- The name-collision lookup: `trainerizeExercise.name?.toLowerCase()` must be
truthy and present in the lower-cased-name map.  A non-string `name` would
raise a `TypeError` in the source and is treated as no match here. -/
def lookupByName (byName : ValMap) (trainerizeExercise : Rec) : Option Rec :=
  match getAttr trainerizeExercise "name" with
  | some (.str s) => if jsToLower s != "" then mapGet byName (.str (jsToLower s)) else none
  | _ => none

/-- Operation kinds of a `SyncOperation`. -/
inductive OpKind where
  | create
  | update
  | skip
  | conflict
deriving DecidableEq, Repr

/-- Embeds the `SyncOperation` record produced by the reconciliation engine. -/
structure SyncOperation where
  id : Val
  operation : OpKind
  trainerize_data : Rec
  existing_data : Option Rec := none
  mapped_data : Rec
  conflicts : List String := []
  reason : Option String := none

/-- Wall-clock inputs of one reconciliation pass: `iso` is
`new Date().toISOString()` and `ms` is `Date.now()`. -/
structure JsTime where
  iso : String
  ms : Int

/-- Embeds `analyzeExercise`. -/
def analyzeExercise (cm : ColumnMapping) (ct : ColumnTypes) (t : JsTime)
    (trainerizeExercise : Rec) (existingByTrainerizeId existingByName : ValMap) :
    SyncOperation :=
  let idVal := (getAttr trainerizeExercise "id").getD .null
  let operation : SyncOperation := {
    id := if idVal.truthy then idVal else .str ("temp_" ++ toString t.ms)
    operation := .create
    trainerize_data := trainerizeExercise
    mapped_data := mapTrainerizeData cm ct t.iso trainerizeExercise }
  match lookupById existingByTrainerizeId trainerizeExercise with
  | some existingById =>
    let conflicts := detectConflicts cm operation.mapped_data existingById
    if conflicts.length > 0 then
      { operation with operation := .conflict, existing_data := some existingById,
                       conflicts := conflicts }
    else
      { operation with operation := .update, existing_data := some existingById }
  | none =>
    match lookupByName existingByName trainerizeExercise with
    | some existingByNameMatch =>
      { operation with operation := .conflict, existing_data := some existingByNameMatch,
                       conflicts := ["Name match found - potential duplicate"],
                       reason := some "Exercise with same name already exists" }
    | none => operation

/-- The index-building loop of `previewSync`: local records keyed by truthy
`trainerize_id`, and separately by truthy lower-cased `name` (a non-string
truthy name would raise a `TypeError` in the source and is skipped here). -/
def buildMaps (cm : ColumnMapping) (existingExercises : List Rec) : ValMap × ValMap :=
  existingExercises.foldl (fun acc ex =>
    let byId :=
      match getAttr ex (getColumnName cm "trainerize_id") with
      | some v => if v.truthy then mapSet acc.1 v ex else acc.1
      | none => acc.1
    let byName :=
      match getAttr ex (getColumnName cm "name") with
      | some (.str s) => if s != "" then mapSet acc.2 (.str (jsToLower s)) ex else acc.2
      | _ => acc.2
    (byId, byName)) ([], [])

/-- Summary block of a `SyncPreview`. -/
structure PreviewSummary where
  to_create : Nat
  to_update : Nat
  to_skip : Nat
  conflicts : Nat

/-- Embeds `SyncPreview` (without the passthrough `schema_info` block). -/
structure SyncPreview where
  total_trainerize_exercises : Nat
  operations : List SyncOperation
  conflicts : List SyncOperation
  summary : PreviewSummary

/-- The classification core of `previewSync`, parametric in the remote record
set (the source obtains it from `getTrainerizeExercises`). -/
def previewSyncCore (cm : ColumnMapping) (ct : ColumnTypes) (t : JsTime)
    (trainerizeData existingExercises : List Rec) : SyncPreview :=
  let maps := buildMaps cm existingExercises
  let operations := trainerizeData.map (fun tr => analyzeExercise cm ct t tr maps.1 maps.2)
  let conflicts := operations.filter (fun op => op.operation = .conflict)
  { total_trainerize_exercises := trainerizeData.length
    operations := operations
    conflicts := conflicts
    summary :=
      { to_create := (operations.filter (fun op => op.operation = .create)).length
        to_update := (operations.filter (fun op => op.operation = .update)).length
        to_skip := (operations.filter (fun op => op.operation = .skip)).length
        conflicts := conflicts.length } }

/-- The hard-coded remote record set returned by `getTrainerizeExercises`. -/
def mockTrainerizeExercises : List Rec :=
  [[("id", .str "tr_1"), ("name", .str "Push-ups"),
    ("description", .str "Basic bodyweight exercise"), ("category", .str "Strength"),
    ("muscle_groups", .arr [.str "Chest", .str "Triceps"]),
    ("equipment", .arr [.str "Bodyweight"]),
    ("difficulty_level", .str "beginner"), ("is_active", .bool true)],
   [("id", .str "tr_2"), ("name", .str "Squats"),
    ("description", .str "Lower body compound exercise"), ("category", .str "Strength"),
    ("muscle_groups", .arr [.str "Legs", .str "Glutes"]),
    ("equipment", .arr [.str "Bodyweight"]),
    ("difficulty_level", .str "beginner"), ("is_active", .bool true)]]

/-- Audit rows written to the `sync_logs` table (the fields the code sets). -/
structure LogRow where
  sync_type : String
  status : String
  records_processed : Nat := 0
  records_created : Nat := 0
  records_updated : Nat := 0

/-- Local storage as seen by the sync service: the `exercises` table and the
`sync_logs` table. -/
structure DB where
  exercises : List Rec
  sync_logs : List LogRow

/-- Embeds a full `previewSync` run against local storage: the only storage
access on this path is the `select` in `getExistingExercises`, a pure read,
so the resulting storage state is returned unchanged. -/
def previewSyncRun (cm : ColumnMapping) (ct : ColumnTypes) (t : JsTime) (db : DB) :
    SyncPreview × DB :=
  (previewSyncCore cm ct t mockTrainerizeExercises db.exercises, db)

/-! Bulk operation coordinator: `performSync` and the execution route filter.
Per-item storage faults are injected by pairing each operation with a flag
saying whether its storage write fails (the collaborator's response is an
external input of the run). -/

/-- Summary block of a `SyncResult`. -/
structure SyncSummary where
  created : Nat := 0
  updated : Nat := 0
  skipped : Nat := 0
  failed : Nat := 0

/-- Embeds `SyncResult` (audit-log id omitted; it is the index of the run row
appended to `sync_logs`). -/
structure SyncResultM where
  success : Bool
  operations_performed : List SyncOperation
  errors : List String
  summary : SyncSummary

/-- Audit row inserted by `createAuditLog` at run start. -/
def auditStartRow : LogRow := { sync_type := "manual", status := "started" }

/-- Per-item audit row inserted by `logOperation`. -/
def logOperationRow (operation : String) : LogRow :=
  { sync_type := "operation", status := "completed", records_processed := 1,
    records_created := if operation == "create" then 1 else 0,
    records_updated := if operation == "update" then 1 else 0 }

/-- Embeds `createExercise`: inserts the mapped data, then logs the item.
`fault` injects a failing storage insert, which the source turns into a
thrown error. -/
def createExercise (db : DB) (op : SyncOperation) (fault : Bool) : Except String DB :=
  if fault then .error "Failed to create exercise: storage error"
  else .ok { db with exercises := db.exercises ++ [op.mapped_data],
                     sync_logs := db.sync_logs ++ [logOperationRow "create"] }

/-- Embeds `updateExercise` of the sync service: reads the primary key from
`existing_data` (absent data or a falsy key value throws), updates the
matching rows with the mapped columns, then logs the item. -/
def updateExercise (pk : String) (db : DB) (op : SyncOperation) (fault : Bool) :
    Except String DB :=
  match op.existing_data with
  | none => .error "Cannot read properties of undefined"
  | some ex =>
    let pkVal := (getAttr ex pk).getD .null
    if !pkVal.truthy then .error "Cannot update exercise: no primary key found"
    else if fault then .error "Failed to update exercise: storage error"
    else .ok { db with
      exercises := db.exercises.map (fun row =>
        if Val.seq ((getAttr row pk).getD .null) pkVal then mergeRec row op.mapped_data
        else row),
      sync_logs := db.sync_logs ++ [logOperationRow "update"] }

/-- One iteration of the `performSync` loop: dispatch on the operation kind,
catch any item failure into the error bucket, never abort the batch. -/
def performSyncStep (pk : String) (db : DB) (acc : SyncResultM) (op : SyncOperation)
    (fault : Bool) : DB × SyncResultM :=
  let attempt : Except String (DB × SyncSummary) :=
    if op.operation = .create then
      (createExercise db op fault).map
        (fun db2 => (db2, { acc.summary with created := acc.summary.created + 1 }))
    else if op.operation = .update then
      (updateExercise pk db op fault).map
        (fun db2 => (db2, { acc.summary with updated := acc.summary.updated + 1 }))
    else .ok (db, { acc.summary with skipped := acc.summary.skipped + 1 })
  match attempt with
  | .ok (db2, s) =>
    (db2, { acc with summary := s,
                     operations_performed := acc.operations_performed ++ [op] })
  | .error msg =>
    (db, { acc with summary := { acc.summary with failed := acc.summary.failed + 1 },
                    errors := acc.errors ++ [msg], success := false })

/-- The `performSync` loop over the operation list. -/
def performSyncLoop (pk : String) : DB × SyncResultM → List (SyncOperation × Bool) →
    DB × SyncResultM
  | p, [] => p
  | p, ob :: rest => performSyncLoop pk (performSyncStep pk p.1 p.2 ob.1 ob.2) rest

/-- Embeds `updateAuditLog` for the `sync_complete` case: marks the run row
completed. -/
def completeAuditLog (logs : List LogRow) (runId : Nat) : List LogRow :=
  match logs.get? runId with
  | some row => logs.set runId { row with status := "completed" }
  | none => logs

/-- Embeds `performSync`: writes the run-start audit row, processes every
operation catching item-level failures, then marks the run row completed.
The run-start and run-complete audit writes are assumed to succeed (their
failure is a run-level error outside the per-item accounting). -/
def performSync (pk : String) (db : DB) (ops : List (SyncOperation × Bool)) :
    DB × SyncResultM :=
  let runId := db.sync_logs.length
  let db0 : DB := { db with sync_logs := db.sync_logs ++ [auditStartRow] }
  let init : SyncResultM :=
    { success := true, operations_performed := [], errors := [], summary := {} }
  let res := performSyncLoop pk (db0, init) ops
  ({ res.1 with sync_logs := completeAuditLog res.1.sync_logs runId }, res.2)

/-- Embeds the execution-route filter in `POST /api/sync/preview`: conflict and
skip operations are removed before `performSync` is called. -/
def filterValidOperations (operations : List SyncOperation) : List SyncOperation :=
  operations.filter (fun op => op.operation ≠ .conflict ∧ op.operation ≠ .skip)

/-- A create operation, or an update operation whose `existing_data` carries a
truthy primary-key value — the conditions under which only the injected
storage fault can make the item fail. -/
def itemOk (pk : String) (op : SyncOperation) : Bool :=
  op.operation == OpKind.create ||
    (op.operation == OpKind.update &&
      match op.existing_data with
      | some ex => ((getAttr ex pk).getD .null).truthy
      | none => false)

/-- The storage effect of one successfully applied create or update
operation on the exercises table. -/
def applyWrite (pk : String) (exs : List Rec) (op : SyncOperation) : List Rec :=
  if op.operation = .create then exs ++ [op.mapped_data]
  else if op.operation = .update then
    match op.existing_data with
    | some ex =>
      exs.map (fun row =>
        if Val.seq ((getAttr row pk).getD .null) ((getAttr ex pk).getD .null) then
          mergeRec row op.mapped_data
        else row)
    | none => exs
  else exs

/-! Rate-limited gateway: `waitForRateLimit` and `makeRequest`. -/

/-- Embeds the gateway configuration (`RateLimitOptions`). -/
structure RateLimitOptions where
  requestsPerSecond : Nat
  maxRetries : Nat
  retryDelay : Nat

/-- Embeds `this.rateLimitDelay = 1000 / this.options.requestsPerSecond`
(exact for the default of 2 requests per second). -/
def rateLimitDelayOf (requestsPerSecond : Nat) : Nat := 1000 / requestsPerSecond

/-- Embeds one execution of `waitForRateLimit` over an abstract monotone
millisecond clock and returns the new `lastRequestTime` watermark.  `tNow` is
the first `Date.now()` reading, `last` the current watermark, and `eps` the
extra real time elapsing before the second `Date.now()` reading (a `setTimeout`
never fires early; any overshoot is absorbed in `eps`). -/
def waitForRateLimit (rateLimitDelay last tNow eps : Nat) : Nat :=
  if tNow - last < rateLimitDelay then
    tNow + (rateLimitDelay - (tNow - last)) + eps
  else tNow + eps

/-- Watermarks stamped by a sequence of gateway calls, each given by its first
clock reading and its `eps` slack. -/
def runGatewayCalls (rateLimitDelay : Nat) (last : Nat) : List (Nat × Nat) → List Nat
  | [] => []
  | (t, e) :: rest =>
    let w := waitForRateLimit rateLimitDelay last t e
    w :: runGatewayCalls rateLimitDelay w rest

/-- The clock readings are consistent with a monotone clock: each call's first
`Date.now()` reading is at least the watermark stamped by the previous call. -/
def timesValid (rateLimitDelay last : Nat) : List (Nat × Nat) → Bool
  | [] => true
  | (t, e) :: rest =>
    last ≤ t && timesValid rateLimitDelay (waitForRateLimit rateLimitDelay last t e) rest

/-- One simulated response to a `fetch` in `makeRequest`: either a non-2xx
HTTP status with the response text, or a 2xx JSON body. -/
inductive SimResp where
  | httpErr (status : Nat) (errorText : String)
  | okBody (data : Rec)

/-- Outcome of the `try` block of one `makeRequest` attempt, before the
`catch` runs: a returned value (`none` embeds the `null` returned on 404), a
429 backoff followed by a tail call whose promise is returned without being
awaited (so its rejection bypasses this attempt's `catch`), or a thrown
error message. -/
inductive TryOut where
  | value (v : Option Rec)
  | backoff (wait : Nat)
  | thrown (msg : String)

/-- Embeds the `try` block of `makeRequest` for one response, in source branch
order: 429 with retries left, 401, 403, 404, other non-2xx, then the internal
`code` check of a 2xx JSON body. -/
def tryBody (opts : RateLimitOptions) (r : SimResp) (attempt : Nat) : TryOut :=
  match r with
  | .httpErr status errorText =>
    if status = 429 ∧ attempt < opts.maxRetries then
      .backoff (opts.retryDelay * 2 ^ (attempt - 1))
    else if status = 401 then
      .thrown "Trainerize API authentication failed. Check your credentials."
    else if status = 403 then
      .thrown "Trainerize API access forbidden. Check your permissions."
    else if status = 404 then
      .value none
    else
      .thrown ("Trainerize API error " ++ toString status ++ ": " ++ errorText)
  | .okBody data =>
    match getAttr data "code" with
    | some c =>
      if !(Val.seq c (.num 0)) then
        .thrown ("Trainerize API returned error code " ++ showVal c ++ ": "
          ++ showValO (getAttr data "message"))
      else .value (some data)
    | none => .value (some data)

/-- Trace of one `makeRequest` call chain: number of requests issued, the
backoff and retry waits in order, and the surfaced outcome. -/
structure ReqTrace where
  attempts : Nat
  waits : List Nat
  outcome : Except String (Option Rec)

/-- Embeds `makeRequest` against a simulated response sequence (assumed to
cover every attempt actually issued; running out of responses ends the
simulation).  The `catch` clause retries with linear delay while attempts
remain, except for errors whose message contains `authentication`, which are
rethrown at once. -/
def makeRequestSim (opts : RateLimitOptions) : List SimResp → Nat → ReqTrace
  | [], _ => ⟨0, [], .error "no simulated response"⟩
  | r :: rest, attempt =>
    match tryBody opts r attempt with
    | .value v => ⟨1, [], .ok v⟩
    | .backoff w =>
      let t := makeRequestSim opts rest (attempt + 1)
      ⟨t.attempts + 1, w :: t.waits, t.outcome⟩
    | .thrown msg =>
      if attempt < opts.maxRetries ∧ ¬jsIncludes msg "authentication" then
        let t := makeRequestSim opts rest (attempt + 1)
        ⟨t.attempts + 1, (opts.retryDelay * attempt) :: t.waits, t.outcome⟩
      else ⟨1, [], .error msg⟩

/-! The client-side bulk-add path: local-to-remote field mapping, exercise
validation, `addExercise` and `bulkAddExercises`.  Data reaching these paths
has string-typed names, descriptions and urls; a non-string value where the
source would call a string method (raising a `TypeError`) is modelled by the
nearest non-crashing branch. -/

/-- Embeds `mapToRecordType`: lower-cased category looked up in a fixed table,
defaulting to `general`. -/
def mapToRecordType (category : Val) : Val :=
  let table : List (String × String) :=
    [("strength", "strength"), ("cardio", "cardio"), ("endurance", "endurance"),
     ("timed", "timedFasterBetter")]
  match category with
  | .str s => .str (((table.find? (fun p => p.1 == jsToLower s)).map Prod.snd).getD "general")
  | _ => .str "general"

/-- Embeds `mapToTag`: a falsy or empty muscle-group list maps to `none`,
otherwise the first group is looked up, defaulting to `fullBody`. -/
def mapToTag (muscleGroups : Val) : Val :=
  let table : List (String × String) :=
    [("arms", "arms"), ("shoulders", "shoulder"), ("shoulder", "shoulder"),
     ("chest", "chest"), ("back", "back"), ("core", "abs"), ("abs", "abs"),
     ("legs", "legs"), ("cardio", "cardio")]
  match muscleGroups with
  | .arr [] => .str "none"
  | .arr (.str s :: _) =>
    .str (((table.find? (fun p => p.1 == jsToLower s)).map Prod.snd).getD "fullBody")
  | .arr (_ :: _) => .str "fullBody"
  | v => if v.truthy then .str "fullBody" else .str "none"

/-- Embeds `inferVideoType`: `none` embeds the `undefined` result. -/
def inferVideoType (url : Val) : Option Val :=
  match url with
  | .str s =>
    if s == "" then none
    else if jsIncludes s "youtube.com" || jsIncludes s "youtu.be" then some (.str "youtube")
    else if jsIncludes s "vimeo.com" then some (.str "vimeo")
    else none
  | _ => none

/-- The `fieldMappings` table built in the `TrainerizeClient` constructor:
supabase field, trainerize field, optional transform (`none` result of a
transform embeds `undefined`, which suppresses the field). -/
def clientFieldMappings : List (String × String × Option (Val → Option Val)) :=
  [("name", "name", none),
   ("alternate_name", "alternateName", none),
   ("description", "description", none),
   ("category", "recordType", some (fun v => some (mapToRecordType v))),
   ("muscle_groups", "tag", some (fun v => some (mapToTag v))),
   ("video_url", "videoUrl", none),
   ("video_url", "videoType", some inferVideoType)]

/-- Builds one remote tag object. -/
def mkTag (ty : String) (name : Val) : Val :=
  .obj [("type", .str ty), ("name", name)]

/-- Embeds the JS `a || b` read over two properties. -/
def jsOrAttr (ex : Rec) (k1 k2 : String) : Val :=
  if truthyO (getAttr ex k1) then (getAttr ex k1).getD .null
  else (getAttr ex k2).getD .null

/-- Embeds `buildTags`: muscle groups, equipment (scalar normalised to a
one-element list), difficulty and category expanded into the flat tag list. -/
def buildTags (exercise : Rec) : Val :=
  let muscleTags :=
    match getAttr exercise "muscle_groups" with
    | some (.arr vs) => vs.map (mkTag "muscle")
    | _ => []
  let equipmentTags :=
    match getAttr exercise "equipment" with
    | some v =>
      if v.truthy then
        match v with
        | .arr vs => vs.map (mkTag "equipment")
        | w => [mkTag "equipment" w]
      else []
    | none => []
  let difficultyTags :=
    if truthyO (getAttr exercise "difficulty_level") || truthyO (getAttr exercise "difficulty")
    then [mkTag "difficulty" (jsOrAttr exercise "difficulty_level" "difficulty")]
    else []
  let categoryTags :=
    if truthyO (getAttr exercise "category") then
      [mkTag "category" ((getAttr exercise "category").getD .null)]
    else []
  .arr (muscleTags ++ equipmentTags ++ difficultyTags ++ categoryTags)

/-- Embeds `mapSupabaseToTrainerize`: starts from the name, applies each
mapping entry whose source value is defined and non-null and whose transform
result is defined, then attaches the built tag list. -/
def mapSupabaseToTrainerize (exercise : Rec) : Rec :=
  let mapped : Rec :=
    match getAttr exercise "name" with
    | some v => [("name", v)]
    | none => []
  let mapped := clientFieldMappings.foldl (fun m entry =>
    match getAttr exercise entry.1 with
    | some value =>
      if Val.seq value .null then m
      else
        let transformed := match entry.2.2 with
          | some f => f value
          | none => some value
        match transformed with
        | some tv => setAttr m entry.2.1 tv
        | none => m
    | none => m) mapped
  setAttr mapped "tags" (buildTags exercise)

/-- Valid `recordType` values. -/
def validRecordTypes : List String :=
  ["general", "strength", "endurance", "timedFasterBetter", "timedLongerBetter",
   "timedStrength", "cardio"]

/-- Valid `tag` values. -/
def validTags : List String :=
  ["arms", "shoulder", "chest", "back", "abs", "legs", "cardio", "fullBody", "none"]

/-- Valid `videoType` values. -/
def validVideoTypes : List String := ["youtube", "vimeo"]

/-- Membership of a value in a list of string constants, as tested by
`Array.prototype.includes` (a non-string value is never included). -/
def valIn (v : Val) (xs : List String) : Bool :=
  match v with
  | .str s => xs.contains s
  | _ => false

/-- Embeds `validateExerciseCreate`: returns `isValid` and the error list in
push order. -/
def validateExerciseCreate (exercise : Rec) : Bool × List String :=
  let nameRequired :=
    match getAttr exercise "name" with
    | some (.str s) => (jsTrim s).length == 0
    | some v => !v.truthy
    | none => true
  let nameTooLong :=
    match getAttr exercise "name" with
    | some (.str s) => decide (s.length > 100)
    | _ => false
  let descriptionTooLong :=
    match getAttr exercise "description" with
    | some (.str s) => decide (s.length > 500)
    | _ => false
  let recordTypeInvalid :=
    match getAttr exercise "recordType" with
    | some v => v.truthy && !valIn v validRecordTypes
    | none => false
  let tagInvalid :=
    match getAttr exercise "tag" with
    | some v => v.truthy && !valIn v validTags
    | none => false
  let videoTypeInvalid :=
    match getAttr exercise "videoType" with
    | some v => v.truthy && !valIn v validVideoTypes
    | none => false
  let videoUrlTooLong :=
    match getAttr exercise "videoUrl" with
    | some (.str s) => decide (s.length > 255)
    | _ => false
  let errors :=
    (if nameRequired then ["Exercise name is required"] else [])
    ++ (if nameTooLong then ["Exercise name must be less than 100 characters"] else [])
    ++ (if descriptionTooLong then ["Description must be less than 500 characters"] else [])
    ++ (if recordTypeInvalid then ["Invalid record type"] else [])
    ++ (if tagInvalid then ["Invalid exercise tag"] else [])
    ++ (if videoTypeInvalid then ["Invalid video type"] else [])
    ++ (if videoUrlTooLong then ["Video URL must be less than 255 characters"] else [])
  (errors.isEmpty, errors)

/-- Embeds `parseInt` for the values reaching it (numbers pass through;
integer strings parse; anything else gives `NaN`, modelled as `null`). -/
def jsParseInt (v : Val) : Val :=
  match v with
  | .num n => .num n
  | .str s => match s.toInt? with | some n => .num n | none => .null
  | _ => .null

/-- Outcome of the underlying `makeRequest` call, supplied by the simulation:
a thrown error message or the returned data (`none` embeds the 404 `null`). -/
abbrev RemoteOutcome := Except String (Option Rec)

/-- Embeds `addExercise`: returns the response object and whether a request
was issued to the remote API.  Validation failures return early with the
joined errors and never issue a request; a thrown remote error is converted
into a failure response. -/
def addExercise (remote : RemoteOutcome) (exercise : Rec) : Rec × Bool :=
  let validation := validateExerciseCreate exercise
  let nameField : Rec :=
    match getAttr exercise "name" with
    | some v => [("name", v)]
    | none => []
  if !validation.1 then
    ([("id", .num 0)] ++ nameField
      ++ [("success", .bool false), ("error", .str (String.intercalate ", " validation.2))],
     false)
  else
    match remote with
    | .error msg =>
      ([("id", .num 0)] ++ nameField ++ [("success", .bool false), ("error", .str msg)], true)
    | .ok responseO =>
      let newIdO :=
        match responseO with
        | some response =>
          let idv := (getAttr response "id").getD .null
          if idv.truthy then some idv
          else
            let ev := (getAttr response "exerciseId").getD .null
            if ev.truthy then some ev else none
        | none => none
      match responseO, newIdO with
      | some response, some newId =>
        (mergeRec ([("id", jsParseInt newId)] ++ nameField ++ [("success", .bool true)])
          response, true)
      | _, _ =>
        ([("id", .num 0)] ++ nameField
          ++ [("success", .bool false), ("error", .str "No ID returned from Trainerize")],
         true)

/-- Result buckets of `bulkAddExercises`. -/
structure BulkResults where
  successful : List (Rec × String)
  failed : List (Rec × String)
  skipped : List (Rec × String)
  duplicates : List (Rec × String)

/-- State threaded through the `bulkAddExercises` loop: the buckets, the
evolving exercises table, and the payloads sent to the remote create
endpoint (in order). -/
structure BulkState where
  results : BulkResults
  db : List Rec
  payloads : List Rec

/-- Embeds the duplicate-detection fetch: rows whose `trainerize_id` column
is non-null (an absent property embeds a NULL column). -/
def fetchSynced (db : List Rec) : List Rec :=
  db.filter (fun e =>
    match getAttr e "trainerize_id" with
    | some v => !(Val.seq v .null)
    | none => false)

/-- Embeds the duplicate lookup: the first already-synced record whose name
equals the candidate name case-insensitively. -/
def findDuplicate (existingExercises : List Rec) (exercise : Rec) : Option Rec :=
  match getAttr exercise "name" with
  | some (.str s) =>
    existingExercises.find? (fun e =>
      match getAttr e "name" with
      | some (.str t) => jsToLower t == jsToLower s
      | _ => false)
  | _ => none

/-- The post-create storage update: records the new remote id on the row. -/
def applySyncedUpdate (tid nowIso : String) (row : Rec) : Rec :=
  setAttr (setAttr (setAttr row "trainerize_id" (.str tid)) "synced_at" (.str nowIso))
    "sync_status" (.str "synced")

/-- One iteration of the `bulkAddExercises` loop: skip-existing check, then
duplicate short-circuit, then mapping, the remote create call, and the
success or failure bucket with the storage write-back. -/
def bulkAddStep (existingExercises : List Rec) (skipExisting checkForDuplicates : Bool)
    (remote : Nat → RemoteOutcome) (nowIso : String) (st : BulkState) (exercise : Rec) :
    BulkState :=
  if skipExisting && truthyO (getAttr exercise "trainerize_id") then
    { st with results := { st.results with
        skipped := st.results.skipped ++ [(exercise, "Already synced to Trainerize")] } }
  else
    let dup := if checkForDuplicates then findDuplicate existingExercises exercise else none
    let isDup := match dup with
      | some d => truthyO (getAttr d "trainerize_id")
      | none => false
    match dup, isDup with
    | some d, true =>
      { st with results := { st.results with
          duplicates := st.results.duplicates ++ [(exercise, showValO (getAttr d "name"))] } }
    | _, _ =>
      let trainerizeExercise := mapSupabaseToTrainerize exercise
      let result := addExercise (remote st.payloads.length) trainerizeExercise
      let resp := result.1
      let st2 := { st with payloads := st.payloads ++ [trainerizeExercise] }
      if truthyO (getAttr resp "success") && truthyO (getAttr resp "id") then
        let tid := showValO (getAttr resp "id")
        { st2 with
          results := { st2.results with
            successful := st2.results.successful ++ [(exercise, tid)] },
          db := st2.db.map (fun row =>
            if Val.seq ((getAttr row "id").getD .null) ((getAttr exercise "id").getD .null)
            then applySyncedUpdate tid nowIso row else row) }
      else
        let errMsg :=
          if truthyO (getAttr resp "error") then showValO (getAttr resp "error")
          else "Unknown error"
        { st2 with results := { st2.results with
            failed := st2.results.failed ++ [(exercise, errMsg)] } }

/-- Embeds `bulkAddExercises`: fetches the requested rows, snapshots the
synced records for duplicate detection, then folds the per-item step. -/
def bulkAddExercises (db : List Rec) (exerciseIds : List Val)
    (skipExisting checkForDuplicates : Bool) (remote : Nat → RemoteOutcome)
    (nowIso : String) : BulkState :=
  let exercises := db.filter (fun ex =>
    exerciseIds.any (fun i => Val.seq ((getAttr ex "id").getD .null) i))
  let existingExercises := if checkForDuplicates then fetchSynced db else []
  exercises.foldl (bulkAddStep existingExercises skipExisting checkForDuplicates remote nowIso)
    ⟨⟨[], [], [], []⟩, db, []⟩

/-! Theorems. -/

theorem getAttr_setAttr (m : Rec) (k : String) (v : Val) (k' : String) :
    getAttr (setAttr m k v) k' = if k' = k then some v else getAttr m k' := by
  induction m with
  | nil =>
    rcases eq_or_ne k' k with h | h
    · subst h; simp [setAttr, getAttr]
    · simp [setAttr, getAttr, h, h.symm]
  | cons p r ih =>
    obtain ⟨k₀, v₀⟩ := p
    rcases eq_or_ne k₀ k with h0 | h0
    · subst h0
      rcases eq_or_ne k' k₀ with h | h
      · subst h; simp [setAttr, getAttr]
      · simp [setAttr, getAttr, h, h.symm]
    · rcases eq_or_ne k₀ k' with h | h
      · subst h
        simp [setAttr, getAttr, h0]
      · simp [setAttr, getAttr, h0, h, ih]


theorem Val.seq_symm (a b : Val) : Val.seq a b = Val.seq b a := by
  cases a <;> cases b <;> simp [Val.seq, eq_comm]

theorem differsOn_symm (cm : ColumnMapping) (a b : Rec) (f : String) :
    differsOn cm a b f = differsOn cm b a f := by
  simp only [differsOn, Val.seq_symm ((getAttr a (getColumnName cm f)).getD .null)]
  ac_rfl

/-- C9: if `detectConflicts(A, B)` reports field `f` as differing then
`detectConflicts(B, A)` reports `f` as well, and the reversed-direction run
contains the entry rendered with old and new values swapped. -/
theorem detectConflicts_symm (cm : ColumnMapping) (a b : Rec) (f : String) :
    (f ∈ conflictFieldNames cm a b ↔ f ∈ conflictFieldNames cm b a) ∧
    (f ∈ conflictFieldNames cm a b →
      renderConflict f ((getAttr a (getColumnName cm f)).getD .null)
          ((getAttr b (getColumnName cm f)).getD .null) ∈ detectConflicts cm b a) := by
  constructor
  · simp only [conflictFieldNames, List.mem_filter]
    rw [differsOn_symm]
  · intro hf
    have hf' : f ∈ conflictFieldNames cm b a := by
      simpa only [conflictFieldNames, List.mem_filter, differsOn_symm cm a b f] using hf
    simpa only [detectConflicts] using List.mem_map_of_mem _ hf'

/-- C9 witness: a concrete pair of records differing on `name`. -/
theorem detectConflicts_symm_instance :
    ("name" ∈ conflictFieldNames [] [("name", .str "a")] [("name", .str "b")]) ∧
    renderConflict "name" (.str "a") (.str "b") ∈
      detectConflicts [] [("name", .str "b")] [("name", .str "a")] := by
  refine ⟨by decide, ?_⟩
  exact (detectConflicts_symm [] [("name", .str "a")] [("name", .str "b")] "name").2 (by decide)

/-- C3: with `maxRetries = 3` and base delay `d`, the sequence 429, 429, 200
issues 3 requests with exactly 2 backoff waits of strictly increasing
duration (`d * 2 ^ 0` then `d * 2 ^ 1`) and succeeds; four consecutive 429s
surface the rate-limit error after exactly 3 requests, leaving every further
simulated response unconsumed. -/
theorem makeRequest_retry_backoff (d : Nat) (hd : 0 < d) (data : Rec)
    (hcode : getAttr data "code" = none) (rest rest4 : List SimResp)
    (e1 e2 e3 e4 e5 e6 : String) :
    ((makeRequestSim ⟨2, 3, d⟩
        (.httpErr 429 e1 :: .httpErr 429 e2 :: .okBody data :: rest) 1).attempts = 3
      ∧ (makeRequestSim ⟨2, 3, d⟩
          (.httpErr 429 e1 :: .httpErr 429 e2 :: .okBody data :: rest) 1).waits
          = [d * 2 ^ 0, d * 2 ^ 1]
      ∧ List.Chain' (· < ·) (makeRequestSim ⟨2, 3, d⟩
          (.httpErr 429 e1 :: .httpErr 429 e2 :: .okBody data :: rest) 1).waits
      ∧ (makeRequestSim ⟨2, 3, d⟩
          (.httpErr 429 e1 :: .httpErr 429 e2 :: .okBody data :: rest) 1).outcome
          = .ok (some data))
    ∧ ((makeRequestSim ⟨2, 3, d⟩
        (.httpErr 429 e4 :: .httpErr 429 e5 :: .httpErr 429 e6 :: rest4) 1).attempts = 3
      ∧ (makeRequestSim ⟨2, 3, d⟩
          (.httpErr 429 e4 :: .httpErr 429 e5 :: .httpErr 429 e6 :: rest4) 1).outcome
          = .error ("Trainerize API error 429: " ++ e6)) := by
  have h1 : makeRequestSim ⟨2, 3, d⟩
      (.httpErr 429 e1 :: .httpErr 429 e2 :: .okBody data :: rest) 1
      = ⟨3, [d * 2 ^ 0, d * 2 ^ 1], .ok (some data)⟩ := by
    simp [makeRequestSim, tryBody, hcode]
  have h2 : makeRequestSim ⟨2, 3, d⟩
      (.httpErr 429 e4 :: .httpErr 429 e5 :: .httpErr 429 e6 :: rest4) 1
      = ⟨3, [d * 2 ^ 0, d * 2 ^ 1], .error ("Trainerize API error 429: " ++ e6)⟩ := by
    simp [makeRequestSim, tryBody]
    rfl
  refine ⟨⟨?_, ?_, ?_, ?_⟩, ?_, ?_⟩ <;> simp only [h1, h2]
  all_goals first
    | rfl
    | (simp only [List.chain'_cons, List.chain'_singleton, and_true, pow_zero, pow_one]
       omega)

/-- C3 witness at the default base delay of 1000 ms. -/
theorem makeRequest_retry_backoff_instance :
    0 < 1000 ∧ getAttr [] "code" = none ∧
    ((makeRequestSim ⟨2, 3, 1000⟩
        [.httpErr 429 "a", .httpErr 429 "b", .okBody []] 1).attempts = 3
      ∧ (makeRequestSim ⟨2, 3, 1000⟩
          [.httpErr 429 "a", .httpErr 429 "b", .okBody []] 1).waits
          = [1000 * 2 ^ 0, 1000 * 2 ^ 1]
      ∧ List.Chain' (· < ·) (makeRequestSim ⟨2, 3, 1000⟩
          [.httpErr 429 "a", .httpErr 429 "b", .okBody []] 1).waits
      ∧ (makeRequestSim ⟨2, 3, 1000⟩
          [.httpErr 429 "a", .httpErr 429 "b", .okBody []] 1).outcome = .ok (some []))
    ∧ ((makeRequestSim ⟨2, 3, 1000⟩
        [.httpErr 429 "c", .httpErr 429 "d", .httpErr 429 "e", .httpErr 429 "f"] 1).attempts
        = 3
      ∧ (makeRequestSim ⟨2, 3, 1000⟩
          [.httpErr 429 "c", .httpErr 429 "d", .httpErr 429 "e", .httpErr 429 "f"] 1).outcome
          = .error ("Trainerize API error 429: " ++ "e")) :=
  ⟨by decide, rfl,
    makeRequest_retry_backoff 1000 (by decide) [] rfl [] [.httpErr 429 "f"]
      "a" "b" "" "c" "d" "e"⟩

/-- C4 counterexample: a 403 response does not fail immediately.  With
`maxRetries = 3`, a 403 followed by a success is retried after a linear
backoff wait and the chain ends in success: two requests are issued, one
wait is performed, and no fatal error surfaces. -/
theorem makeRequest_403_retried_cex :
    (makeRequestSim ⟨2, 3, 1000⟩ [.httpErr 403 "Forbidden", .okBody []] 1).attempts = 2
    ∧ (makeRequestSim ⟨2, 3, 1000⟩ [.httpErr 403 "Forbidden", .okBody []] 1).waits = [1000]
    ∧ (makeRequestSim ⟨2, 3, 1000⟩ [.httpErr 403 "Forbidden", .okBody []] 1).outcome
        = .ok (some []) :=
  ⟨rfl, rfl, rfl⟩

/-- C4 amended: a 401 response fails immediately and is never retried (its
message contains `authentication`, which the catch clause rethrows at once);
a 403 response throws, but the catch clause retries it with linear delay
while attempts remain, and its error surfaces only once retries are
exhausted. -/
theorem makeRequest_auth_behavior (opts : RateLimitOptions) (responses : List SimResp)
    (attempt : Nat) (e : String) :
    (makeRequestSim opts (.httpErr 401 e :: responses) attempt
      = ⟨1, [], .error "Trainerize API authentication failed. Check your credentials."⟩)
    ∧ (attempt < opts.maxRetries →
        makeRequestSim opts (.httpErr 403 e :: responses) attempt
          = ⟨(makeRequestSim opts responses (attempt + 1)).attempts + 1,
             opts.retryDelay * attempt :: (makeRequestSim opts responses (attempt + 1)).waits,
             (makeRequestSim opts responses (attempt + 1)).outcome⟩)
    ∧ (opts.maxRetries ≤ attempt →
        makeRequestSim opts (.httpErr 403 e :: responses) attempt
          = ⟨1, [], .error "Trainerize API access forbidden. Check your permissions."⟩) := by
  refine ⟨?_, ?_, ?_⟩
  · rcases Nat.lt_or_ge attempt opts.maxRetries with h | h
    · simp [makeRequestSim, tryBody, h] <;> decide
    · simp [makeRequestSim, tryBody, Nat.not_lt.mpr h] <;> decide
  · intro h
    simp [makeRequestSim, tryBody, h] <;> decide
  · intro h
    simp [makeRequestSim, tryBody, Nat.not_lt.mpr h] <;> decide

/-- C4 amended witness: a concrete 403 at attempt 1 of 3 is retried. -/
theorem makeRequest_auth_behavior_instance :
    (1 : Nat) < 3 ∧
    makeRequestSim ⟨2, 3, 1000⟩ [.httpErr 403 "x", .okBody []] 1
      = ⟨(makeRequestSim ⟨2, 3, 1000⟩ [.okBody []] 2).attempts + 1,
         1000 * 1 :: (makeRequestSim ⟨2, 3, 1000⟩ [.okBody []] 2).waits,
         (makeRequestSim ⟨2, 3, 1000⟩ [.okBody []] 2).outcome⟩ :=
  ⟨by decide, (makeRequest_auth_behavior ⟨2, 3, 1000⟩ [.okBody []] 1 "x").2.1 (by decide)⟩

theorem waitForRateLimit_lb (delay last t e : Nat) (h : last ≤ t) :
    last + delay ≤ waitForRateLimit delay last t e := by
  unfold waitForRateLimit
  split <;> omega

theorem runGatewayCalls_head_lb (delay last : Nat) (ps : List (Nat × Nat))
    (hv : timesValid delay last ps = true) :
    ∀ b ∈ (runGatewayCalls delay last ps).head?, last + delay ≤ b := by
  cases ps with
  | nil => simp [runGatewayCalls]
  | cons p rest =>
    obtain ⟨t, e⟩ := p
    simp only [timesValid, Bool.and_eq_true, decide_eq_true_eq] at hv
    simp only [runGatewayCalls, List.head?_cons, Option.mem_def, Option.some.injEq]
    rintro b rfl
    exact waitForRateLimit_lb delay last t e hv.1

/-- C5: over any monotone-clock execution, consecutive gateway-call
watermarks are spaced by at least `1000 / requestsPerSecond` milliseconds
(500 ms at the default of 2 requests per second). -/
theorem gateway_rate_invariant (rps last : Nat) (ps : List (Nat × Nat))
    (hv : timesValid (rateLimitDelayOf rps) last ps = true) :
    List.Chain' (fun a b => a + rateLimitDelayOf rps ≤ b)
      (runGatewayCalls (rateLimitDelayOf rps) last ps)
    ∧ rateLimitDelayOf 2 = 500 := by
  refine ⟨?_, rfl⟩
  generalize hD : rateLimitDelayOf rps = delay at hv ⊢
  clear hD
  induction ps generalizing last with
  | nil => simp [runGatewayCalls]
  | cons p rest ih =>
    obtain ⟨t, e⟩ := p
    simp only [timesValid, Bool.and_eq_true, decide_eq_true_eq] at hv
    simp only [runGatewayCalls]
    rw [List.chain'_cons']
    exact ⟨runGatewayCalls_head_lb delay _ rest hv.2, ih _ hv.2⟩

/-- C5 witness: three calls at the default rate, entering as soon as allowed. -/
theorem gateway_rate_invariant_instance :
    timesValid (rateLimitDelayOf 2) 0 [(0, 0), (500, 0), (1000, 0)] = true ∧
    List.Chain' (fun a b => a + rateLimitDelayOf 2 ≤ b)
      (runGatewayCalls (rateLimitDelayOf 2) 0 [(0, 0), (500, 0), (1000, 0)])
    ∧ rateLimitDelayOf 2 = 500 :=
  ⟨by decide, gateway_rate_invariant 2 0 [(0, 0), (500, 0), (1000, 0)] (by decide)⟩

theorem performSyncStep_skip (pk : String) (db : DB) (acc : SyncResultM)
    (op : SyncOperation) (fault : Bool)
    (h : op.operation = .skip ∨ op.operation = .conflict) :
    performSyncStep pk db acc op fault =
      (db, { acc with summary := { acc.summary with skipped := acc.summary.skipped + 1 },
                      operations_performed := acc.operations_performed ++ [op] }) := by
  rcases h with h | h <;> simp [performSyncStep, h]

theorem performSyncStep_fault (pk : String) (db : DB) (acc : SyncResultM)
    (op : SyncOperation) (h : itemOk pk op = true) :
    performSyncStep pk db acc op true =
      (db, { acc with
              summary := { acc.summary with failed := acc.summary.failed + 1 },
              errors := acc.errors
                ++ [if op.operation = .create then "Failed to create exercise: storage error"
                    else "Failed to update exercise: storage error"],
              success := false }) := by
  simp only [itemOk, Bool.or_eq_true, Bool.and_eq_true, beq_iff_eq] at h
  rcases h with h | ⟨h, hex⟩
  · simp [performSyncStep, createExercise, h, Except.map]
  · cases hdat : op.existing_data with
    | none => rw [hdat] at hex; simp at hex
    | some ex =>
      rw [hdat] at hex
      replace hex : ((getAttr ex pk).getD Val.null).truthy = true := by simpa using hex
      simp [performSyncStep, updateExercise, h, hdat, hex, Except.map]

theorem performSyncStep_create_ok (pk : String) (db : DB) (acc : SyncResultM)
    (op : SyncOperation) (h : op.operation = .create) :
    performSyncStep pk db acc op false =
      ({ db with exercises := db.exercises ++ [op.mapped_data],
                 sync_logs := db.sync_logs ++ [logOperationRow "create"] },
       { acc with summary := { acc.summary with created := acc.summary.created + 1 },
                  operations_performed := acc.operations_performed ++ [op] }) := by
  simp [performSyncStep, createExercise, h, Except.map]

theorem performSyncStep_update_ok (pk : String) (db : DB) (acc : SyncResultM)
    (op : SyncOperation) (ex : Rec) (h : op.operation = .update)
    (hdat : op.existing_data = some ex)
    (hex : ((getAttr ex pk).getD .null).truthy = true) :
    performSyncStep pk db acc op false =
      ({ db with
          exercises := db.exercises.map (fun row =>
            if Val.seq ((getAttr row pk).getD .null) ((getAttr ex pk).getD .null) then
              mergeRec row op.mapped_data
            else row),
          sync_logs := db.sync_logs ++ [logOperationRow "update"] },
       { acc with summary := { acc.summary with updated := acc.summary.updated + 1 },
                  operations_performed := acc.operations_performed ++ [op] }) := by
  simp [performSyncStep, updateExercise, h, hdat, hex, Except.map]

theorem performSyncLoop_spec (pk : String) (ops : List (SyncOperation × Bool)) :
    ∀ db acc, (∀ ob ∈ ops, itemOk pk ob.1 = true) →
      ((performSyncLoop pk (db, acc) ops).2.summary.failed
          = acc.summary.failed + (ops.filter (fun ob => ob.2)).length)
      ∧ ((performSyncLoop pk (db, acc) ops).2.summary.created
           + (performSyncLoop pk (db, acc) ops).2.summary.updated
          = acc.summary.created + acc.summary.updated
            + (ops.length - (ops.filter (fun ob => ob.2)).length))
      ∧ ((performSyncLoop pk (db, acc) ops).2.summary.skipped = acc.summary.skipped)
      ∧ ((performSyncLoop pk (db, acc) ops).2.success
          = (acc.success && decide ((ops.filter (fun ob => ob.2)).length = 0)))
      ∧ ((performSyncLoop pk (db, acc) ops).1.exercises
          = (ops.filter (fun ob => !ob.2)).foldl (fun exs ob => applyWrite pk exs ob.1)
              db.exercises) := by
  induction ops with
  | nil => intro db acc _; simp [performSyncLoop]
  | cons ob rest ih =>
    intro db acc h
    obtain ⟨op, fault⟩ := ob
    have hop : itemOk pk op = true := h (op, fault) (by simp)
    have hrest : ∀ x ∈ rest, itemOk pk x.1 = true := fun x hx => h x (by simp [hx])
    have hlen := rest.length_filter_le (fun ob => ob.2)
    cases fault with
    | true =>
      have hKc : ((op, true) :: rest).filter (fun ob => ob.2)
          = (op, true) :: rest.filter (fun ob => ob.2) := by simp
      have hWc : ((op, true) :: rest).filter (fun ob => !ob.2)
          = rest.filter (fun ob => !ob.2) := by simp
      simp only [performSyncLoop, performSyncStep_fault pk db acc op hop]
      obtain ⟨f1, f2, f3, f4, f5⟩ := ih db
        { acc with
            summary := { acc.summary with failed := acc.summary.failed + 1 },
            errors := acc.errors
              ++ [if op.operation = .create then "Failed to create exercise: storage error"
                  else "Failed to update exercise: storage error"],
            success := false } hrest
      refine ⟨?_, ?_, ?_, ?_, ?_⟩
      · rw [f1, hKc]; simp only [List.length_cons]; omega
      · rw [f2, hKc]; simp only [List.length_cons]; omega
      · rw [f3]
      · rw [f4, hKc]; simp
      · rw [f5, hWc]
    | false =>
      have hKc : ((op, false) :: rest).filter (fun ob => ob.2)
          = rest.filter (fun ob => ob.2) := by simp
      have hWc : ((op, false) :: rest).filter (fun ob => !ob.2)
          = (op, false) :: rest.filter (fun ob => !ob.2) := by simp
      have hop' := hop
      simp only [itemOk, Bool.or_eq_true, Bool.and_eq_true, beq_iff_eq] at hop'
      rcases hop' with hc | ⟨hu, hex⟩
      · simp only [performSyncLoop, performSyncStep_create_ok pk db acc op hc]
        obtain ⟨f1, f2, f3, f4, f5⟩ := ih
          { db with exercises := db.exercises ++ [op.mapped_data],
                    sync_logs := db.sync_logs ++ [logOperationRow "create"] }
          { acc with
              summary := { acc.summary with created := acc.summary.created + 1 },
              operations_performed := acc.operations_performed ++ [op] } hrest
        refine ⟨?_, ?_, ?_, ?_, ?_⟩
        · rw [f1, hKc]
        · rw [f2, hKc]; simp only [List.length_cons]; omega
        · rw [f3]
        · rw [f4, hKc]
        · rw [f5, hWc]
          simp [applyWrite, hc]
      · cases hdat : op.existing_data with
        | none => rw [hdat] at hex; simp at hex
        | some ex =>
          rw [hdat] at hex
          replace hex : ((getAttr ex pk).getD Val.null).truthy = true := by simpa using hex
          simp only [performSyncLoop, performSyncStep_update_ok pk db acc op ex hu hdat hex]
          obtain ⟨f1, f2, f3, f4, f5⟩ := ih
            { db with
                exercises := db.exercises.map (fun row =>
                  if Val.seq ((getAttr row pk).getD .null) ((getAttr ex pk).getD .null) then
                    mergeRec row op.mapped_data
                  else row),
                sync_logs := db.sync_logs ++ [logOperationRow "update"] }
            { acc with
                summary := { acc.summary with updated := acc.summary.updated + 1 },
                operations_performed := acc.operations_performed ++ [op] } hrest
          refine ⟨?_, ?_, ?_, ?_, ?_⟩
          · rw [f1, hKc]
          · rw [f2, hKc]; simp only [List.length_cons]; omega
          · rw [f3]
          · rw [f4, hKc]
          · rw [f5, hWc]
            simp [applyWrite, hu, hdat]

/-- C6: per-item failures are caught and the batch continues.  For operations
that are all creates, or updates carrying a usable primary key, with exactly
K injected write faults: the summary reports `failed = K`, the other N - K
operations are counted and applied to the exercises table in order, and the
run is successful exactly when K = 0.  `performSync` is a total function:
no item-level failure escapes it. -/
theorem performSync_partial_failure (pk : String) (db : DB)
    (ops : List (SyncOperation × Bool)) (hok : ∀ ob ∈ ops, itemOk pk ob.1 = true) :
    (performSync pk db ops).2.summary.failed = (ops.filter (fun ob => ob.2)).length
    ∧ (performSync pk db ops).2.summary.created + (performSync pk db ops).2.summary.updated
        = ops.length - (ops.filter (fun ob => ob.2)).length
    ∧ ((performSync pk db ops).2.success = true ↔ (ops.filter (fun ob => ob.2)).length = 0)
    ∧ (performSync pk db ops).1.exercises
        = (ops.filter (fun ob => !ob.2)).foldl (fun exs ob => applyWrite pk exs ob.1)
            db.exercises := by
  obtain ⟨f1, f2, f3, f4, f5⟩ := performSyncLoop_spec pk ops
    { db with sync_logs := db.sync_logs ++ [auditStartRow] }
    { success := true, operations_performed := [], errors := [], summary := {} } hok
  refine ⟨?_, ?_, ?_, ?_⟩ <;> simp_all [performSync]

/-- C6 witness: two create operations, the second forced to fail. -/
theorem performSync_partial_failure_instance :
    (∀ ob ∈ [((⟨.str "a", .create, [], none, [("name", .str "x")], [], none⟩ : SyncOperation),
              false),
             ((⟨.str "b", .create, [], none, [("name", .str "y")], [], none⟩ : SyncOperation),
              true)], itemOk "id" ob.1 = true)
    ∧ ((performSync "id" ⟨[], []⟩
        [((⟨.str "a", .create, [], none, [("name", .str "x")], [], none⟩ : SyncOperation),
          false),
         ((⟨.str "b", .create, [], none, [("name", .str "y")], [], none⟩ : SyncOperation),
          true)]).2.summary.failed = 1
      ∧ (performSync "id" ⟨[], []⟩
          [((⟨.str "a", .create, [], none, [("name", .str "x")], [], none⟩ : SyncOperation),
            false),
           ((⟨.str "b", .create, [], none, [("name", .str "y")], [], none⟩ : SyncOperation),
            true)]).1.exercises = [[("name", .str "x")]]) := by
  have h := performSync_partial_failure "id" ⟨[], []⟩
    [((⟨.str "a", .create, [], none, [("name", .str "x")], [], none⟩ : SyncOperation), false),
     ((⟨.str "b", .create, [], none, [("name", .str "y")], [], none⟩ : SyncOperation), true)]
    (by intro ob hob; fin_cases hob <;> rfl)
  exact ⟨by intro ob hob; fin_cases hob <;> rfl, h.1, by rw [h.2.2.2]; rfl⟩

theorem setAppendLength {α : Type} (l : List α) (row row' : α) :
    (l ++ [row]).set l.length row' = l ++ [row'] := by
  induction l with
  | nil => rfl
  | cons a t ih => simpa using ih

theorem completeAuditLog_append (l : List LogRow) (row : LogRow) :
    completeAuditLog (l ++ [row]) l.length = l ++ [{ row with status := "completed" }] := by
  simp only [completeAuditLog, List.get?_concat_length]
  exact setAppendLength l row _

theorem performSyncLoop_skip_only (pk : String) (ops : List (SyncOperation × Bool)) :
    ∀ db acc, (∀ ob ∈ ops, ob.1.operation = .skip ∨ ob.1.operation = .conflict) →
      ((performSyncLoop pk (db, acc) ops).1 = db)
      ∧ ((performSyncLoop pk (db, acc) ops).2.summary.skipped
          = acc.summary.skipped + ops.length)
      ∧ ((performSyncLoop pk (db, acc) ops).2.summary.created = acc.summary.created)
      ∧ ((performSyncLoop pk (db, acc) ops).2.summary.updated = acc.summary.updated)
      ∧ ((performSyncLoop pk (db, acc) ops).2.summary.failed = acc.summary.failed) := by
  induction ops with
  | nil => intro db acc _; simp [performSyncLoop]
  | cons ob rest ih =>
    intro db acc h
    obtain ⟨op, fault⟩ := ob
    have hop := h (op, fault) (by simp)
    have hrest : ∀ x ∈ rest, x.1.operation = .skip ∨ x.1.operation = .conflict :=
      fun x hx => h x (by simp [hx])
    simp only [performSyncLoop, performSyncStep_skip pk db acc op fault hop]
    obtain ⟨f1, f2, f3, f4, f5⟩ := ih db _ hrest
    refine ⟨f1, ?_, ?_, ?_, ?_⟩ <;> simp_all <;> omega

/-- C7: the execution route removes skip and conflict operations before
`performSync`, and `performSync` performs no storage write for such items:
on a batch of only skip and conflict operations the exercises table is
untouched, no per-item audit row is written (only the run-level row), and
every item is merely counted as skipped. -/
theorem conflict_skip_never_applied :
    (∀ (operations : List SyncOperation), ∀ op ∈ filterValidOperations operations,
        op.operation = .create ∨ op.operation = .update)
    ∧ (∀ (pk : String) (db : DB) (ops : List (SyncOperation × Bool)),
        (∀ ob ∈ ops, ob.1.operation = .skip ∨ ob.1.operation = .conflict) →
        (performSync pk db ops).1.exercises = db.exercises
        ∧ (performSync pk db ops).1.sync_logs
            = db.sync_logs ++ [{ auditStartRow with status := "completed" }]
        ∧ (performSync pk db ops).2.summary.skipped = ops.length
        ∧ (performSync pk db ops).2.summary.created = 0
        ∧ (performSync pk db ops).2.summary.updated = 0
        ∧ (performSync pk db ops).2.summary.failed = 0) := by
  constructor
  · intro operations op hop
    simp only [filterValidOperations, List.mem_filter, decide_eq_true_eq] at hop
    obtain ⟨-, h1, h2⟩ := hop
    cases hcase : op.operation <;> simp_all
  · intro pk db ops h
    obtain ⟨f1, f2, f3, f4, f5⟩ := performSyncLoop_skip_only pk ops
      { db with sync_logs := db.sync_logs ++ [auditStartRow] }
      { success := true, operations_performed := [], errors := [], summary := {} } h
    refine ⟨?_, ?_, ?_, ?_, ?_, ?_⟩ <;>
      simp_all [performSync, completeAuditLog_append]

/-- C7 witness: one conflict and one skip operation leave storage untouched. -/
theorem conflict_skip_never_applied_instance :
    (∀ ob ∈ [((⟨.str "a", .conflict, [], none, [("name", .str "x")],
                ["Name match found - potential duplicate"], none⟩ : SyncOperation), false),
             ((⟨.str "b", .skip, [], none, [("name", .str "y")], [], none⟩ : SyncOperation),
              false)],
        ob.1.operation = OpKind.skip ∨ ob.1.operation = OpKind.conflict)
    ∧ ((performSync "id" ⟨[[("name", .str "kept")]], []⟩
        [((⟨.str "a", .conflict, [], none, [("name", .str "x")],
            ["Name match found - potential duplicate"], none⟩ : SyncOperation), false),
         ((⟨.str "b", .skip, [], none, [("name", .str "y")], [], none⟩ : SyncOperation),
          false)]).1.exercises = [[("name", .str "kept")]]
      ∧ (performSync "id" ⟨[[("name", .str "kept")]], []⟩
          [((⟨.str "a", .conflict, [], none, [("name", .str "x")],
              ["Name match found - potential duplicate"], none⟩ : SyncOperation), false),
           ((⟨.str "b", .skip, [], none, [("name", .str "y")], [], none⟩ : SyncOperation),
            false)]).2.summary.skipped = 2) := by
  have hh : ∀ ob ∈ [((⟨.str "a", .conflict, [], none, [("name", .str "x")],
                ["Name match found - potential duplicate"], none⟩ : SyncOperation), false),
             ((⟨.str "b", .skip, [], none, [("name", .str "y")], [], none⟩ : SyncOperation),
              false)],
        ob.1.operation = OpKind.skip ∨ ob.1.operation = OpKind.conflict := by
    intro ob hob; fin_cases hob
    · exact Or.inr rfl
    · exact Or.inl rfl
  have h := (conflict_skip_never_applied).2 "id" ⟨[[("name", .str "kept")]], []⟩ _ hh
  exact ⟨hh, h.1, h.2.2.1⟩

/-- C1: classification of one remote record.  An external-id match yields an
update, reclassified as a conflict carrying exactly the `detectConflicts`
entries when any significant field differs; otherwise a lower-cased-name
match yields a name-collision conflict with its fixed reason; otherwise the
record is a create. -/
theorem analyzeExercise_classification (cm : ColumnMapping) (ct : ColumnTypes) (t : JsTime)
    (tr : Rec) (byId byName : ValMap) :
    (∀ ex, lookupById byId tr = some ex →
      (detectConflicts cm (mapTrainerizeData cm ct t.iso tr) ex ≠ [] →
        (analyzeExercise cm ct t tr byId byName).operation = .conflict
        ∧ (analyzeExercise cm ct t tr byId byName).conflicts
            = detectConflicts cm (mapTrainerizeData cm ct t.iso tr) ex
        ∧ (analyzeExercise cm ct t tr byId byName).existing_data = some ex)
      ∧ (detectConflicts cm (mapTrainerizeData cm ct t.iso tr) ex = [] →
        (analyzeExercise cm ct t tr byId byName).operation = .update
        ∧ (analyzeExercise cm ct t tr byId byName).existing_data = some ex
        ∧ (analyzeExercise cm ct t tr byId byName).conflicts = []))
    ∧ (lookupById byId tr = none → ∀ ex, lookupByName byName tr = some ex →
        (analyzeExercise cm ct t tr byId byName).operation = .conflict
        ∧ (analyzeExercise cm ct t tr byId byName).conflicts
            = ["Name match found - potential duplicate"]
        ∧ (analyzeExercise cm ct t tr byId byName).reason
            = some "Exercise with same name already exists")
    ∧ (lookupById byId tr = none → lookupByName byName tr = none →
        (analyzeExercise cm ct t tr byId byName).operation = .create
        ∧ (analyzeExercise cm ct t tr byId byName).conflicts = []
        ∧ (analyzeExercise cm ct t tr byId byName).reason = none) := by
  refine ⟨?_, ?_, ?_⟩
  · intro ex hex
    constructor
    · intro hne
      have hlen : (detectConflicts cm (mapTrainerizeData cm ct t.iso tr) ex).length > 0 :=
        List.length_pos.mpr hne
      simp [analyzeExercise, hex, hlen]
    · intro heq
      simp [analyzeExercise, hex, heq]
  · intro hid ex hname
    simp [analyzeExercise, hid, hname]
  · intro hid hname
    simp [analyzeExercise, hid, hname]

/-- C1 witness: an external-id match with a differing name yields a conflict
carrying the rendered entry. -/
theorem analyzeExercise_classification_instance :
    lookupById [(.str "tr_1", [("name", .str "Other")])]
        [("id", .str "tr_1"), ("name", .str "Push-ups")]
      = some [("name", .str "Other")]
    ∧ detectConflicts []
        (mapTrainerizeData [] [] "2024-01-01T00:00:00.000Z"
          [("id", .str "tr_1"), ("name", .str "Push-ups")])
        [("name", .str "Other")] ≠ []
    ∧ ((analyzeExercise [] [] ⟨"2024-01-01T00:00:00.000Z", 0⟩
          [("id", .str "tr_1"), ("name", .str "Push-ups")]
          [(.str "tr_1", [("name", .str "Other")])] []).operation = .conflict
      ∧ (analyzeExercise [] [] ⟨"2024-01-01T00:00:00.000Z", 0⟩
          [("id", .str "tr_1"), ("name", .str "Push-ups")]
          [(.str "tr_1", [("name", .str "Other")])] []).conflicts
          = detectConflicts []
              (mapTrainerizeData [] [] "2024-01-01T00:00:00.000Z"
                [("id", .str "tr_1"), ("name", .str "Push-ups")])
              [("name", .str "Other")]
      ∧ (analyzeExercise [] [] ⟨"2024-01-01T00:00:00.000Z", 0⟩
          [("id", .str "tr_1"), ("name", .str "Push-ups")]
          [(.str "tr_1", [("name", .str "Other")])] []).existing_data
          = some [("name", .str "Other")]) := by
  refine ⟨rfl, by decide, ?_⟩
  exact ((analyzeExercise_classification [] [] ⟨"2024-01-01T00:00:00.000Z", 0⟩
    [("id", .str "tr_1"), ("name", .str "Push-ups")]
    [(.str "tr_1", [("name", .str "Other")])] []).1
    [("name", .str "Other")] rfl).1 (by decide)

/-- C10: `addExercise` is total over its error cases.  A validation failure
returns `success: false` with id 0 and the joined errors without issuing a
request; a thrown remote error is converted into a `success: false`
response carrying the message (the request having been issued). -/
theorem addExercise_total (remote : RemoteOutcome) (exercise : Rec) :
    ((validateExerciseCreate exercise).1 = false →
      addExercise remote exercise =
        ([("id", .num 0)]
          ++ (match getAttr exercise "name" with
              | some v => [("name", v)]
              | none => [])
          ++ [("success", .bool false),
              ("error", .str (String.intercalate ", " (validateExerciseCreate exercise).2))],
         false))
    ∧ (∀ msg, (validateExerciseCreate exercise).1 = true → remote = .error msg →
      addExercise remote exercise =
        ([("id", .num 0)]
          ++ (match getAttr exercise "name" with
              | some v => [("name", v)]
              | none => [])
          ++ [("success", .bool false), ("error", .str msg)],
         true)) := by
  constructor
  · intro hv
    simp [addExercise, hv]
  · intro msg hv hr
    simp [addExercise, hv, hr]

/-- C10 witness: an empty name fails validation without a request; a valid
name with a thrown remote error yields a failure response. -/
theorem addExercise_total_instance :
    (validateExerciseCreate [("name", .str "")]).1 = false
    ∧ addExercise (.error "boom") [("name", .str "")]
        = ([("id", .num 0), ("name", .str ""), ("success", .bool false),
            ("error", .str "Exercise name is required")], false)
    ∧ (validateExerciseCreate [("name", .str "Squat")]).1 = true
    ∧ addExercise (.error "boom") [("name", .str "Squat")]
        = ([("id", .num 0), ("name", .str "Squat"), ("success", .bool false),
            ("error", .str "boom")], true) :=
  ⟨rfl, (addExercise_total (.error "boom") [("name", .str "")]).1 rfl, rfl,
    (addExercise_total (.error "boom") [("name", .str "Squat")]).2 "boom" rfl rfl⟩

/-- C8 counterexample: a synced record whose `trainerize_id` is the empty
string is non-null, yet a same-named candidate is not routed to the
duplicates bucket — the duplicate test requires a truthy `trainerize_id` —
and a create call is issued to the gateway. -/
theorem bulkAdd_empty_tid_cex :
    (bulkAddExercises
        [[("id", .str "e1"), ("name", .str "push-ups")],
         [("id", .str "e2"), ("name", .str "Push-ups"), ("trainerize_id", .str "")]]
        [.str "e1"] true true (fun _ => .ok (some [("id", .num 77)]))
        "2024-01-01T00:00:00.000Z").results.duplicates = []
    ∧ (bulkAddExercises
        [[("id", .str "e1"), ("name", .str "push-ups")],
         [("id", .str "e2"), ("name", .str "Push-ups"), ("trainerize_id", .str "")]]
        [.str "e1"] true true (fun _ => .ok (some [("id", .num 77)]))
        "2024-01-01T00:00:00.000Z").payloads.length = 1
    ∧ (bulkAddExercises
        [[("id", .str "e1"), ("name", .str "push-ups")],
         [("id", .str "e2"), ("name", .str "Push-ups"), ("trainerize_id", .str "")]]
        [.str "e1"] true true (fun _ => .ok (some [("id", .num 77)]))
        "2024-01-01T00:00:00.000Z").results.successful.length = 1 :=
  ⟨rfl, rfl, rfl⟩

/-- C8 amended: when the first already-synced record whose name matches the
candidate case-insensitively carries a truthy (non-empty) `trainerize_id`,
and the candidate is not short-circuited by the skip-existing check, the
candidate lands in the duplicates bucket and the step issues no gateway call
and performs no storage write. -/
theorem bulkAdd_duplicate_short_circuit (existingExercises : List Rec)
    (skipExisting checkForDuplicates : Bool) (remote : Nat → RemoteOutcome)
    (nowIso : String) (st : BulkState) (exercise d : Rec)
    (hskip : (skipExisting && truthyO (getAttr exercise "trainerize_id")) = false)
    (hdup : checkForDuplicates = true)
    (hfind : findDuplicate existingExercises exercise = some d)
    (htid : truthyO (getAttr d "trainerize_id") = true) :
    bulkAddStep existingExercises skipExisting checkForDuplicates remote nowIso st exercise
      = { st with results := { st.results with
            duplicates := st.results.duplicates
              ++ [(exercise, showValO (getAttr d "name"))] } } := by
  simp [bulkAddStep, hskip, hdup, hfind, htid]

/-- C8 amended witness: a truthy `trainerize_id` on the name match routes the
candidate into the duplicates bucket. -/
theorem bulkAdd_duplicate_short_circuit_instance :
    ((true && truthyO (getAttr [("id", .str "e1"), ("name", .str "push-ups")]
        "trainerize_id")) = false)
    ∧ findDuplicate [[("name", .str "Push-ups"), ("trainerize_id", .str "123")]]
        [("id", .str "e1"), ("name", .str "push-ups")]
        = some [("name", .str "Push-ups"), ("trainerize_id", .str "123")]
    ∧ truthyO (getAttr [("name", .str "Push-ups"), ("trainerize_id", .str "123")]
        "trainerize_id") = true
    ∧ bulkAddStep [[("name", .str "Push-ups"), ("trainerize_id", .str "123")]] true true
        (fun _ => .error "never called") "" ⟨⟨[], [], [], []⟩, [], []⟩
        [("id", .str "e1"), ("name", .str "push-ups")]
      = { (⟨⟨[], [], [], []⟩, [], []⟩ : BulkState) with
          results := { (⟨[], [], [], []⟩ : BulkResults) with
            duplicates := [] ++ [([("id", .str "e1"), ("name", .str "push-ups")],
              showValO (getAttr [("name", .str "Push-ups"), ("trainerize_id", .str "123")]
                "name"))] } } :=
  ⟨rfl, rfl, rfl,
    bulkAdd_duplicate_short_circuit [[("name", .str "Push-ups"), ("trainerize_id", .str "123")]]
      true true (fun _ => .error "never called") "" ⟨⟨[], [], [], []⟩, [], []⟩
      [("id", .str "e1"), ("name", .str "push-ups")]
      [("name", .str "Push-ups"), ("trainerize_id", .str "123")] rfl rfl rfl rfl⟩

theorem getAttr_addTimestamps (cm : ColumnMapping) (now : String) (m : Rec) (c : String)
    (h1 : c ≠ getColumnName cm "updated_at") (h2 : c ≠ getColumnName cm "created_at") :
    getAttr (addTimestamps cm now m) c = getAttr m c := by
  simp only [addTimestamps]
  split <;> split <;> simp [getAttr_setAttr, h1, h2]

theorem getAttr_mapTrainerizeData_sig (cm : ColumnMapping) (ct : ColumnTypes)
    (n1 n2 : String) (tr : Rec) (c : String)
    (h1 : c ≠ getColumnName cm "updated_at") (h2 : c ≠ getColumnName cm "created_at") :
    getAttr (mapTrainerizeData cm ct n1 tr) c = getAttr (mapTrainerizeData cm ct n2 tr) c := by
  unfold mapTrainerizeData
  rw [getAttr_addTimestamps cm n1 _ c h1 h2, getAttr_addTimestamps cm n2 _ c h1 h2]

theorem detectConflicts_mapped_time (cm : ColumnMapping) (ct : ColumnTypes)
    (n1 n2 : String) (tr ex : Rec)
    (hsig : ∀ f ∈ significantFields, getColumnName cm f ≠ getColumnName cm "updated_at"
      ∧ getColumnName cm f ≠ getColumnName cm "created_at") :
    detectConflicts cm (mapTrainerizeData cm ct n1 tr) ex
      = detectConflicts cm (mapTrainerizeData cm ct n2 tr) ex := by
  have hattr : ∀ f ∈ significantFields,
      getAttr (mapTrainerizeData cm ct n1 tr) (getColumnName cm f)
        = getAttr (mapTrainerizeData cm ct n2 tr) (getColumnName cm f) :=
    fun f hf => getAttr_mapTrainerizeData_sig cm ct n1 n2 tr _ (hsig f hf).1 (hsig f hf).2
  unfold detectConflicts conflictFieldNames
  have hfil : significantFields.filter (differsOn cm (mapTrainerizeData cm ct n1 tr) ex)
      = significantFields.filter (differsOn cm (mapTrainerizeData cm ct n2 tr) ex) := by
    apply List.filter_congr
    intro f hf
    simp only [differsOn]
    rw [hattr f hf]
  rw [hfil]
  apply List.map_congr_left
  intro f hf
  have hf' : f ∈ significantFields := (List.mem_filter.mp hf).1
  simp only [hattr f hf']

theorem analyzeExercise_time (cm : ColumnMapping) (ct : ColumnTypes) (t1 t2 : JsTime)
    (tr : Rec) (byId byName : ValMap)
    (hsig : ∀ f ∈ significantFields, getColumnName cm f ≠ getColumnName cm "updated_at"
      ∧ getColumnName cm f ≠ getColumnName cm "created_at") :
    (analyzeExercise cm ct t1 tr byId byName).operation
        = (analyzeExercise cm ct t2 tr byId byName).operation
    ∧ (analyzeExercise cm ct t1 tr byId byName).conflicts
        = (analyzeExercise cm ct t2 tr byId byName).conflicts := by
  have hd := detectConflicts_mapped_time cm ct t1.iso t2.iso tr
  unfold analyzeExercise
  cases hby : lookupById byId tr with
  | some ex =>
    simp only [hby, hd ex hsig]
    split <;> simp
  | none =>
    simp only [hby]
    cases hbn : lookupByName byName tr with
    | some ex => simp [hbn]
    | none => simp [hbn]

/-- C2: the classification is deterministic and idempotent.  Two preview runs
over the same remote and local record sets, at different wall-clock times,
produce operation lists with identical kinds and identical conflict lists
(provided the significant-field columns are distinct from the timestamp
columns), and a preview run leaves local storage unchanged — its only
storage access is a read. -/
theorem previewSync_deterministic (cm : ColumnMapping) (ct : ColumnTypes) (t1 t2 : JsTime)
    (remoteData existing : List Rec) (db : DB)
    (hsig : ∀ f ∈ significantFields, getColumnName cm f ≠ getColumnName cm "updated_at"
      ∧ getColumnName cm f ≠ getColumnName cm "created_at") :
    ((previewSyncCore cm ct t1 remoteData existing).operations.map
        (fun op => (op.operation, op.conflicts)))
      = ((previewSyncCore cm ct t2 remoteData existing).operations.map
        (fun op => (op.operation, op.conflicts)))
    ∧ (previewSyncRun cm ct t1 db).2 = db := by
  refine ⟨?_, rfl⟩
  simp only [previewSyncCore]
  rw [List.map_map, List.map_map]
  apply List.map_congr_left
  intro tr _
  have h := analyzeExercise_time cm ct t1 t2 tr
    (buildMaps cm existing).1 (buildMaps cm existing).2 hsig
  simp [Function.comp, h.1, h.2]

/-- C2 witness: the mock remote set against empty local storage at two
different wall-clock times. -/
theorem previewSync_deterministic_instance :
    (∀ f ∈ significantFields, getColumnName [] f ≠ getColumnName [] "updated_at"
      ∧ getColumnName [] f ≠ getColumnName [] "created_at")
    ∧ ((previewSyncCore [] [] ⟨"2024-01-01T00:00:00.000Z", 0⟩ mockTrainerizeExercises []).operations.map
        (fun op => (op.operation, op.conflicts)))
      = ((previewSyncCore [] [] ⟨"2025-02-02T11:22:33.000Z", 99⟩ mockTrainerizeExercises []).operations.map
        (fun op => (op.operation, op.conflicts)))
    ∧ (previewSyncRun [] [] ⟨"2024-01-01T00:00:00.000Z", 0⟩ ⟨[], []⟩).2 = ⟨[], []⟩ :=
  ⟨by decide,
    previewSync_deterministic [] [] ⟨"2024-01-01T00:00:00.000Z", 0⟩
      ⟨"2025-02-02T11:22:33.000Z", 99⟩ mockTrainerizeExercises [] ⟨[], []⟩ (by decide)⟩

end TrainerizeSync
